import Mathlib

/-!
Verification development for the Munificent site script
(`src/assets/js/main.js`).  The script fetches static JSON files,
renders HTML fragments into fixed DOM containers, and wires up a
contact modal and a mobile menu.  The definitions below are a shallow
embedding of that script: DOM containers become `Option String`
fields, template literals become string concatenations, the browser
fetch becomes an explicit outcome value, and event handlers become
state-passing functions.
-/

namespace Munificent

/-! ## Data model (records loaded verbatim from the JSON files) -/

/-- A team member record (`data/team.json`). -/
structure TeamMember where
  photo : String
  name : String
  role : String
  bio : String
  subjects : List String
deriving DecidableEq, Repr

/-- A product record (`data/products.json`). -/
structure Product where
  title : String
  price : String
  features : List String
  isPopular : Bool
deriving DecidableEq, Repr

/-- A blog post record (`data/blog.json`).  `content` and `image` are
only used by the full-article page. -/
structure BlogPost where
  id : Int
  date : String
  tags : List String
  title : String
  excerpt : String
  link : String
  content : String
  image : Option String
deriving DecidableEq, Repr

/-- The landing/blog DOM containers addressed by `CONFIG.selectors`.
`none` models a selector that matches nothing in the document; `some s`
models a present container whose current `innerHTML` is `s`. -/
structure Dom where
  team : Option String
  services : Option String
  blogPreview : Option String
  fullBlogList : Option String
deriving DecidableEq, Repr

/-! ## Template fragments (the template literals of the renderers) -/

/-- `<span class="tag">${subject}</span>` from `renderTeam`. -/
def subjectTagHtml (s : String) : String :=
  "<span class=\"tag\">" ++ s ++ "</span>"

/-- `<li class="service-card__feature-item">${feature}</li>` from `renderServices`. -/
def featureHtml (f : String) : String :=
  "<li class=\"service-card__feature-item\">" ++ f ++ "</li>"

/-- `<span class="tag tag--small">${tag}</span>` shared by `renderBlog`
and `renderAllArticles`. -/
def smallTagHtml (t : String) : String :=
  "<span class=\"tag tag--small\">" ++ t ++ "</span>"

/-- The per-member template literal of `renderTeam`. -/
def teamCardHtml (m : TeamMember) : String :=
  "\n        <div class=\"card team-card\">\n            <div class=\"team-card__image-wrapper\">\n                <img src=\"" ++
    m.photo ++ "\" alt=\"" ++ m.name ++
    "\" class=\"team-card__image\" loading=\"lazy\">\n            </div>\n            <div class=\"team-card__content\">\n                <h3 class=\"team-card__name\">" ++
    m.name ++ "</h3>\n                <span class=\"badge team-card__role\">" ++
    m.role ++ "</span>\n                <p class=\"team-card__bio\">" ++
    m.bio ++ "</p>\n                <div class=\"team-card__subjects\">\n                    " ++
    String.join (m.subjects.map subjectTagHtml) ++
    "\n                </div>\n            </div>\n        </div>\n    "

/-- The per-product template literal of `renderServices`. -/
def serviceCardHtml (p : Product) : String :=
  "\n        <div class=\"card service-card " ++
    (if p.isPopular then "card--popular" else "") ++
    "\">\n            " ++
    (if p.isPopular then "<span class=\"badge badge--popular\">Popular</span>" else "") ++
    "\n            <h3 class=\"service-card__title\">" ++ p.title ++
    "</h3>\n            <div class=\"service-card__price\">" ++ p.price ++
    "</div>\n            <ul class=\"service-card__features\">\n                " ++
    String.join (p.features.map featureHtml) ++
    "\n            </ul>\n            <a href=\"https://wa.me/77085365323?text=Здравствуйте!%20Хочу%20записаться%20на%20курс:%20" ++
    p.title ++
    "\" target=\"_blank\" class=\"btn btn--primary service-card__action\">Записаться в WhatsApp</a>\n        </div>\n    "

/-- Leading literal chunk of the `renderBlog` per-post template, up to
the first interpolation (`datetime="`). -/
def blogCardL1 : String :=
  "\n        <div class=\"card blog-card\">\n            <div class=\"blog-card__header\">\n                <time class=\"blog-card__date\" datetime=\""

/-- Remainder of the `renderBlog` per-post template after `blogCardL1`.
Only the first two tags are rendered (`post.tags.slice(0, 2)`). -/
def blogCardRest (post : BlogPost) : String :=
  post.date ++ "\">" ++ post.date ++
    "</time>\n                <div class=\"blog-card__tags\">\n                    " ++
    String.join ((post.tags.take 2).map smallTagHtml) ++
    "\n                </div>\n            </div>\n            <h3 class=\"blog-card__title\">" ++
    post.title ++ "</h3>\n            <p class=\"blog-card__excerpt\">" ++
    post.excerpt ++ "</p>\n            <a href=\"" ++ post.link ++
    "\" class=\"link link--arrow\">Читать далее &rarr;</a>\n        </div>\n    "

/-- The per-post template literal of `renderBlog` (blog preview). -/
def blogCardHtml (post : BlogPost) : String :=
  blogCardL1 ++ blogCardRest post

/-- Leading literal chunk of the `renderAllArticles` per-post template,
up to the first interpolation (`datetime="`). -/
def allArticleCardL1 : String :=
  "\n        <div class=\"card blog-card\" style=\"display: flex; flex-direction: column; height: 100%;\">\n            <div class=\"blog-card__header\">\n                <time class=\"blog-card__date\" datetime=\""

/-- Remainder of the `renderAllArticles` per-post template after
`allArticleCardL1`.  Every tag is rendered (`post.tags.map`). -/
def allArticleCardRest (post : BlogPost) : String :=
  post.date ++ "\">" ++ post.date ++
    "</time>\n                <div class=\"blog-card__tags\">\n                    " ++
    String.join (post.tags.map smallTagHtml) ++
    "\n                </div>\n            </div>\n            <h3 class=\"blog-card__title\" style=\"margin-top: auto; margin-bottom: 0.5rem;\">" ++
    post.title ++ "</h3>\n            <p class=\"blog-card__excerpt\" style=\"flex-grow: 1;\">" ++
    post.excerpt ++ "</p>\n            <a href=\"" ++ post.link ++
    "\" class=\"link link--arrow\" style=\"margin-top: 1rem;\">Читать далее &rarr;</a>\n        </div>\n    "

/-- The per-post template literal of `renderAllArticles` (blog archive). -/
def allArticleCardHtml (post : BlogPost) : String :=
  allArticleCardL1 ++ allArticleCardRest post

/-! ## Renderers

Each JS renderer looks up its container with `document.querySelector`,
returns early when the container or the data is absent, and otherwise
overwrites `container.innerHTML` with `data.map(fragment).join('')`. -/

/-- `renderTeam(data)`: writes into `#team-container`. -/
def renderTeam (data : Option (List TeamMember)) (dom : Dom) : Dom :=
  match dom.team, data with
  | some _, some l => { dom with team := some (String.join (l.map teamCardHtml)) }
  | _, _ => dom

/-- `renderServices(data)`: writes into `#services-container`. -/
def renderServices (data : Option (List Product)) (dom : Dom) : Dom :=
  match dom.services, data with
  | some _, some l => { dom with services := some (String.join (l.map serviceCardHtml)) }
  | _, _ => dom

/-- `renderBlog(data)`: writes into `#blog-preview`. -/
def renderBlog (data : Option (List BlogPost)) (dom : Dom) : Dom :=
  match dom.blogPreview, data with
  | some _, some l => { dom with blogPreview := some (String.join (l.map blogCardHtml)) }
  | _, _ => dom

/-- `renderAllArticles(data)`: writes into `#full-blog-list`. -/
def renderAllArticles (data : Option (List BlogPost)) (dom : Dom) : Dom :=
  match dom.fullBlogList, data with
  | some _, some l => { dom with fullBlogList := some (String.join (l.map allArticleCardHtml)) }
  | _, _ => dom

/-! ## Data loader (`fetchData`)

The browser side of `fetch` is modelled by an explicit outcome: either
the request failed at the network level, or a response arrived with an
HTTP status whose body either parses as a value or fails to parse
(`response.json()` rejecting).  `fetchData` checks `response.ok`
(status in 200..299), throws on a non-ok status, and catches every
error, logging it and returning `null`. -/

/-- The possible outcomes of a browser `fetch` call, with the parsed
body abstracted to an arbitrary type. -/
inductive FetchOutcome (α : Type) where
  | networkError (msg : String)
  | response (status : Nat) (body : Except String α)
deriving Repr

/-- `Response.ok`: status in the inclusive range 200..299. -/
def respOk (status : Nat) : Bool :=
  200 ≤ status && status < 300

/-- The `console.error` line emitted by `fetchData`'s catch block. -/
def fetchErrorLog (url msg : String) : String :=
  "Error fetching data from " ++ url ++ ": " ++ msg

/-- `fetchData(url)`: returns the parsed value or `null`, together with
the list of diagnostic-log lines it wrote.  It never throws: the catch
block absorbs network errors, non-ok statuses and body-parse failures. -/
def fetchData {α : Type} (url : String) (o : FetchOutcome α) : Option α × List String :=
  match o with
  | .networkError msg => (none, [fetchErrorLog url msg])
  | .response status body =>
    if respOk status then
      match body with
      | .ok v => (some v, [])
      | .error e => (none, [fetchErrorLog url e])
    else
      (none, [fetchErrorLog url ("HTTP error! Status: " ++ toString status)])

/-! ## The full-article page (`renderFullArticle`) -/

/-- Result of the raw `fetch(...).then(r => r.json())` chain used by
`renderFullArticle` (no `ok` check there): either a parsed post list or
a rejection caught by `.catch`. -/
inductive FetchResult (α : Type) where
  | ok (a : α)
  | err (msg : String)
deriving DecidableEq, Repr

/-- JS whitespace skipped by `parseInt`. -/
def jsWhitespace (c : Char) : Bool :=
  c = ' ' || c = '\t' || c = '\n' || c = '\r' || c = '\x0b' || c = '\x0c'

/-- Numeric value of a decimal digit run. -/
def decDigitsVal (cs : List Char) : Nat :=
  cs.foldl (fun a c => a * 10 + (c.toNat - '0'.toNat)) 0

/-- Hexadecimal digit test. -/
def isHexDigitCh (c : Char) : Bool :=
  c.isDigit || ('a' ≤ c && c ≤ 'f') || ('A' ≤ c && c ≤ 'F')

/-- Numeric value of one hexadecimal digit. -/
def hexDigitVal (c : Char) : Nat :=
  if c.isDigit then c.toNat - '0'.toNat
  else if 'a' ≤ c && c ≤ 'f' then c.toNat - 'a'.toNat + 10
  else if 'A' ≤ c && c ≤ 'F' then c.toNat - 'A'.toNat + 10
  else 0

/-- Numeric value of a hexadecimal digit run. -/
def hexDigitsVal (cs : List Char) : Nat :=
  cs.foldl (fun a c => a * 16 + hexDigitVal c) 0

/-- Magnitude of the digit run after sign handling: a `0x`/`0X` prefix
selects radix 16, otherwise radix 10; no digit at all means `NaN`. -/
def jsParseIntMag (cs : List Char) : Option Nat :=
  match cs with
  | '0' :: 'x' :: rest =>
    let ds := rest.takeWhile isHexDigitCh
    if ds.isEmpty then none else some (hexDigitsVal ds)
  | '0' :: 'X' :: rest =>
    let ds := rest.takeWhile isHexDigitCh
    if ds.isEmpty then none else some (hexDigitsVal ds)
  | _ =>
    let ds := cs.takeWhile Char.isDigit
    if ds.isEmpty then none else some (decDigitsVal ds)

/-- ECMAScript `parseInt(s)` (no explicit radix): skip whitespace, read
an optional sign, then the longest digit run; `none` models `NaN`. -/
def jsParseInt (s : String) : Option Int :=
  let cs := s.data.dropWhile jsWhitespace
  match cs with
  | '-' :: rest => (jsParseIntMag rest).map (fun n => -(n : Int))
  | '+' :: rest => (jsParseIntMag rest).map (fun n => (n : Int))
  | rest => (jsParseIntMag rest).map (fun n => (n : Int))

/-- `parseInt(urlParams.get('id'))`: `urlParams.get` yields `null` for a
missing parameter and `parseInt(null)` is `NaN`. -/
def jsParseIntOpt : Option String → Option Int
  | none => none
  | some s => jsParseInt s

/-- The `#article-hero-image` element: markup content and CSS display. -/
structure HeroDiv where
  html : String
  display : String
deriving DecidableEq, Repr

/-- The article page's written elements: `document.title`,
`#article-title`, `#article-meta`, `#article-content`, and the optional
`#article-hero-image` div. -/
structure ArticleDom where
  docTitle : String
  title : String
  meta : String
  content : String
  hero : Option HeroDiv
deriving DecidableEq, Repr

/-- The "not found" title string written by `renderFullArticle`. -/
def notFoundTitle : String := "Статья не найдена"

/-- The fallback content written when no post matches the id. -/
def notFoundContent : String :=
  "<p>Запрашиваемый материал отсутствует в нашей базе.</p>"

/-- The `#article-meta` template literal. -/
def articleMetaHtml (post : BlogPost) : String :=
  "\n                    <span>" ++ post.date ++
    "</span> | \n                    <span style=\"color: var(--accent);\">" ++
    String.intercalate ", " post.tags ++ "</span>\n                "

/-- The hero `<img>` markup written when `post.image` is truthy. -/
def heroImgHtml (post : BlogPost) : String :=
  "<img src=\"" ++ post.image.getD "" ++ "\" alt=\"" ++ post.title ++
    "\" style=\"width:100%; border-radius:8px; margin-bottom:1rem;\">"

/-- The share-block template appended to the article content;
`href` is `window.location.href`. -/
def shareBlockHtml (href : String) : String :=
  "\n                    <div class=\"share-block\" style=\"margin-top: 2rem; padding-top: 1rem; border-top: 1px solid rgba(100, 255, 218, 0.1);\">\n                        <h4 style=\"margin-bottom: 1rem;\">Понравилась статья? Поделись с друзьями:</h4>\n                        <a href=\"https://wa.me/?text=Смотри крутую статью: " ++
    href ++ "\" target=\"_blank\" class=\"btn-share\">WhatsApp</a>\n                        <a href=\"https://t.me/share/url?url=" ++
    href ++ "\" target=\"_blank\" class=\"btn-share\">Telegram</a>\n                    </div>\n                "

/-- JS truthiness of `post.image` (absent or empty string is falsy). -/
def imageTruthy : Option String → Bool
  | none => false
  | some s => !s.isEmpty

/-- The matched-post branch of `renderFullArticle`: sets the document
title, the article title, the hero image (when the div exists), the
meta line, and the content followed by the share block. -/
def renderFoundPost (href : String) (post : BlogPost) (art : ArticleDom) : ArticleDom :=
  let a1 := { art with docTitle := post.title ++ " | Munificent", title := post.title }
  let a2 :=
    match a1.hero with
    | some h =>
      if imageTruthy post.image then { a1 with hero := some { h with html := heroImgHtml post } }
      else { a1 with hero := some { h with display := "none" } }
    | none => a1
  { a2 with meta := articleMetaHtml post,
            content := post.content ++ shareBlockHtml href }

/-- `renderFullArticle()`: parses the `id` query parameter; a falsy id
(`NaN` from a missing/non-numeric parameter, or `0`) sets only the
title and returns before any fetch.  Otherwise the blog data is
fetched; a rejection only logs; with data, `data.find(p => p.id === id)`
selects the post, and a miss writes the not-found title and fallback
content.  Returns the article elements and the log lines written. -/
def renderFullArticle (href : String) (q : Option String)
    (blog : FetchResult (List BlogPost)) (art : ArticleDom) :
    ArticleDom × List String :=
  match jsParseIntOpt q with
  | none => ({ art with title := notFoundTitle }, [])
  | some i =>
    if i = 0 then ({ art with title := notFoundTitle }, [])
    else
      match blog with
      | .err e => (art, ["Failed to load article: " ++ e])
      | .ok data =>
        match data.find? (fun p => p.id == i) with
        | some post => (renderFoundPost href post art, [])
        | none => ({ art with title := notFoundTitle, content := notFoundContent }, [])

/-! ## Page router (`init`) -/

/-- Bool-valued list-infix test used to model `String.includes`. -/
def listInfix (needle : List Char) : List Char → Bool
  | [] => needle.isEmpty
  | c :: rest => needle.isPrefixOf (c :: rest) || listInfix needle rest

/-- `path.includes(sub)`. -/
def strIncludes (s sub : String) : Bool :=
  listInfix sub.data s.data

/-- The whole page state `init` can touch: the landing/blog containers
and the article elements. -/
structure Page where
  dom : Dom
  art : ArticleDom
deriving DecidableEq, Repr

/-- The browser environment `init` runs against: location path, full
href, the `id` query parameter, and the outcome of each fetch the
script may perform. -/
structure Env where
  path : String
  href : String
  query : Option String
  teamOutcome : FetchOutcome (List TeamMember)
  productsOutcome : FetchOutcome (List Product)
  blogOutcome : FetchOutcome (List BlogPost)
  articleOutcome : FetchResult (List BlogPost)

/-- The landing-page body of `init`: fetch the three files and run the
three landing renderers in order. -/
def landingRender (env : Env) (dom : Dom) : Dom :=
  let d1 := renderTeam (fetchData "data/team.json" env.teamOutcome).fst dom
  let d2 := renderServices (fetchData "data/products.json" env.productsOutcome).fst d1
  renderBlog (fetchData "data/blog.json" env.blogOutcome).fst d2

/-- `init()`: substring-dispatch on the location path.  An
`article.html` path runs `renderFullArticle`; otherwise a `blog.html`
path fetches the blog data and runs `renderAllArticles`; otherwise the
landing logic runs only when `#team-container` exists, fetching all
three files and running the three landing renderers. -/
def init (env : Env) (p : Page) : Page :=
  if strIncludes env.path "article.html" then
    { p with art := (renderFullArticle env.href env.query env.articleOutcome p.art).fst }
  else if strIncludes env.path "blog.html" then
    { p with dom := renderAllArticles (fetchData "data/blog.json" env.blogOutcome).fst p.dom }
  else
    match p.dom.team with
    | some _ => { p with dom := landingRender env p.dom }
    | none => p

/-! ## Modal, mobile menu and form submission -/

/-- The modal container: CSS display plus its class set. -/
structure ModalUi where
  display : String
  classes : Finset String
deriving DecidableEq

/-- Open-click handler body: `modal.style.display = 'block'`. -/
def openClick (m : ModalUi) : ModalUi :=
  { m with display := "block" }

/-- The 10ms timer of the open handler: adds `modal--open`. -/
def openTimer (m : ModalUi) : ModalUi :=
  { m with classes := insert "modal--open" m.classes }

/-- `closeModal` body: removes `modal--open`. -/
def closeClick (m : ModalUi) : ModalUi :=
  { m with classes := m.classes.erase "modal--open" }

/-- The 300ms transition timer of `closeModal`: `display = 'none'`. -/
def closeTimer (m : ModalUi) : ModalUi :=
  { m with display := "none" }

/-- `closeModal` with its transition timer elapsed. -/
def closeModalFull (m : ModalUi) : ModalUi :=
  closeTimer (closeClick m)

/-- `DOMTokenList.toggle`: remove the token when present, add it when
absent (class lists are set-like for CSS purposes). -/
def classToggle (s : Finset String) (c : String) : Finset String :=
  if c ∈ s then s.erase c else insert c s

/-- Class state of `.nav-links` and `.menu-toggle`. -/
structure MenuState where
  navLinks : Finset String
  menuToggle : Finset String
deriving DecidableEq

/-- The `.menu-toggle` click handler: toggles `active` on the nav and
`open` on the toggle control. -/
def menuToggleClick (m : MenuState) : MenuState :=
  { navLinks := classToggle m.navLinks "active",
    menuToggle := classToggle m.menuToggle "open" }

/-- The submit button: label and disabled flag. -/
structure SubmitBtn where
  text : String
  disabled : Bool
deriving DecidableEq, Repr

/-- State touched by the contact-form submit handler. -/
structure SubmitCtx where
  btn : SubmitBtn
  modal : ModalUi
  contactNumber : Option Nat
  formWasReset : Bool
  alerts : List String
deriving DecidableEq

/-- The `Отправка...` label shown while sending. -/
def sendingLabel : String := "Отправка..."

/-- Success alert text. -/
def sentAlert : String := "Сообщение отправлено! Мы скоро свяжемся с вами."

/-- Failure alert text. -/
def failAlert : String := "Ошибка отправки. Пожалуйста, попробуйте позже."

/-- The submit handler, run to completion with the email widget's
settlement given by `success` and `Math.random() * 100000 | 0` given by
`rand % 100000`: stamps the contact number (when the hidden input
exists), saves the button label, disables the button with the sending
label, runs the success or failure continuation, and in `finally`
restores the saved label and re-enables the button. -/
def submitHandler (success : Bool) (rand : Nat) (c : SubmitCtx) : SubmitCtx :=
  let c1 :=
    match c.contactNumber with
    | some _ => { c with contactNumber := some (rand % 100000) }
    | none => c
  let originalText := c1.btn.text
  let c2 := { c1 with btn := { text := sendingLabel, disabled := true } }
  let c3 :=
    if success then
      { c2 with alerts := c2.alerts ++ [sentAlert],
                modal := closeModalFull c2.modal,
                formWasReset := true }
    else
      { c2 with alerts := c2.alerts ++ [failAlert] }
  { c3 with btn := { text := originalText, disabled := false } }

/-! ## Concrete sample inputs -/

/-- A sample team member. -/
def member0 : TeamMember :=
  { photo := "p.jpg", name := "Alice", role := "Tutor", bio := "bio", subjects := ["math"] }

/-- A sample product. -/
def prod0 : Product :=
  { title := "Course", price := "100", features := ["feature one"], isPopular := false }

/-- A sample blog post with id 1 and three tags. -/
def post3 : BlogPost :=
  { id := 1, date := "2024-01-01", tags := ["a", "b", "c"], title := "T",
    excerpt := "E", link := "article.html?id=1", content := "C", image := none }

/-- A DOM in which every container exists with empty content. -/
def dom1 : Dom :=
  { team := some "", services := some "", blogPreview := some "", fullBlogList := some "" }

/-- A DOM with no team container but a services container holding `"old"`. -/
def domOld : Dom :=
  { team := none, services := some "old", blogPreview := none, fullBlogList := none }

/-- Sample article elements with original content `"orig"` and no hero div. -/
def art0 : ArticleDom :=
  { docTitle := "doc", title := "orig-title", meta := "m", content := "orig", hero := none }

/-- A page combining `domOld` and `art0`. -/
def page0 : Page :=
  { dom := domOld, art := art0 }

/-- A landing-page environment (path matches neither `article.html` nor
`blog.html`); the products fetch succeeds with one product. -/
def env0 : Env :=
  { path := "index.html", href := "", query := none,
    teamOutcome := .networkError "offline",
    productsOutcome := .response 200 (.ok [prod0]),
    blogOutcome := .networkError "offline",
    articleOutcome := .err "offline" }

/-- `env0` steered to the article page. -/
def envArt : Env :=
  { env0 with path := "article.html" }

/-- A success-status fetch outcome whose body fails to parse as JSON. -/
def badBodyOutcome : FetchOutcome Nat :=
  .response 200 (.error "Unexpected token <")

/-- The modal in its initial hidden state. -/
def modal0 : ModalUi :=
  { display := "none", classes := ∅ }

/-! ## Helper lemmas -/

/-- Taking at most the length of the left part of an append stays in
the left part. -/
theorem take_append_left {α : Type} (n : Nat) (l₁ l₂ : List α) (h : n ≤ l₁.length) :
    (l₁ ++ l₂).take n = l₁.take n := by
  induction l₁ generalizing n with
  | nil =>
    have hn : n = 0 := Nat.le_zero.mp h
    simp [hn]
  | cons a t ih =>
    cases n with
    | zero => simp
    | succ m =>
      simp only [List.cons_append, List.take_succ_cons]
      rw [ih m (by simpa using h)]

/-- `DOMTokenList.toggle` is an involution on the class set. -/
theorem classToggle_twice (s : Finset String) (c : String) :
    classToggle (classToggle s c) c = s := by
  by_cases h : c ∈ s
  · have h2 : c ∉ s.erase c := Finset.not_mem_erase c s
    simp [classToggle, h, h2, Finset.insert_erase h]
  · have h2 : c ∈ insert c s := Finset.mem_insert_self c s
    simp [classToggle, h, h2, Finset.erase_insert h]

set_option maxRecDepth 4000 in
/-- The first 37 characters of a preview card are those of its fixed
leading literal. -/
theorem blogCard_take37 (p : BlogPost) :
    (blogCardHtml p).data.take 37 = blogCardL1.data.take 37 := by
  rw [blogCardHtml, String.data_append]
  exact take_append_left 37 _ _ (by decide)

set_option maxRecDepth 4000 in
/-- The first 37 characters of an archive card are those of its fixed
leading literal. -/
theorem allArticleCard_take37 (p : BlogPost) :
    (allArticleCardHtml p).data.take 37 = allArticleCardL1.data.take 37 := by
  rw [allArticleCardHtml, String.data_append]
  exact take_append_left 37 _ _ (by decide)

/-! ## Claims -/

/-- C1: for every non-null array of records and every present target
container, each renderer (renderTeam, renderServices, renderBlog,
renderAllArticles) replaces the container's content with the
concatenation (`join('')`) of exactly one markup fragment per input
record, in the same order as the input array (the fragment list is the
elementwise `map` of the record list, so it has one entry per record in
input order). -/
theorem c1_render_one_fragment_per_record (dom : Dom)
    (tl : List TeamMember) (pl : List Product) (bl : List BlogPost) (al : List BlogPost) :
    (dom.team.isSome = true →
      (renderTeam (some tl) dom).team = some (String.join (tl.map teamCardHtml)) ∧
      (tl.map teamCardHtml).length = tl.length) ∧
    (dom.services.isSome = true →
      (renderServices (some pl) dom).services = some (String.join (pl.map serviceCardHtml)) ∧
      (pl.map serviceCardHtml).length = pl.length) ∧
    (dom.blogPreview.isSome = true →
      (renderBlog (some bl) dom).blogPreview = some (String.join (bl.map blogCardHtml)) ∧
      (bl.map blogCardHtml).length = bl.length) ∧
    (dom.fullBlogList.isSome = true →
      (renderAllArticles (some al) dom).fullBlogList = some (String.join (al.map allArticleCardHtml)) ∧
      (al.map allArticleCardHtml).length = al.length) := by
  refine ⟨?_, ?_, ?_, ?_⟩ <;> intro h
  · cases hc : dom.team with
    | none => rw [hc] at h; simp at h
    | some c => exact ⟨by simp [renderTeam, hc], by simp⟩
  · cases hc : dom.services with
    | none => rw [hc] at h; simp at h
    | some c => exact ⟨by simp [renderServices, hc], by simp⟩
  · cases hc : dom.blogPreview with
    | none => rw [hc] at h; simp at h
    | some c => exact ⟨by simp [renderBlog, hc], by simp⟩
  · cases hc : dom.fullBlogList with
    | none => rw [hc] at h; simp at h
    | some c => exact ⟨by simp [renderAllArticles, hc], by simp⟩

/-- Witness for C1 at a concrete DOM and record lists. -/
theorem c1_render_one_fragment_per_record_witness :
    dom1.team.isSome = true ∧
    (renderTeam (some [member0]) dom1).team = some (String.join ([member0].map teamCardHtml)) :=
  ⟨rfl, ((c1_render_one_fragment_per_record dom1 [member0] [] [] []).1 rfl).1⟩

/-- C2: for every renderer, if the data argument is null or the target
container is missing from the document, the renderer performs no
write: the whole DOM (hence every container's content) is unchanged. -/
theorem c2_render_noop_on_null_or_missing (dom : Dom)
    (td : Option (List TeamMember)) (pd : Option (List Product))
    (bd : Option (List BlogPost)) (ad : Option (List BlogPost)) :
    (renderTeam none dom = dom) ∧ (dom.team = none → renderTeam td dom = dom) ∧
    (renderServices none dom = dom) ∧ (dom.services = none → renderServices pd dom = dom) ∧
    (renderBlog none dom = dom) ∧ (dom.blogPreview = none → renderBlog bd dom = dom) ∧
    (renderAllArticles none dom = dom) ∧ (dom.fullBlogList = none → renderAllArticles ad dom = dom) := by
  refine ⟨?_, ?_, ?_, ?_, ?_, ?_, ?_, ?_⟩
  · cases hc : dom.team <;> simp [renderTeam, hc]
  · intro h; cases td <;> simp [renderTeam, h]
  · cases hc : dom.services <;> simp [renderServices, hc]
  · intro h; cases pd <;> simp [renderServices, h]
  · cases hc : dom.blogPreview <;> simp [renderBlog, hc]
  · intro h; cases bd <;> simp [renderBlog, h]
  · cases hc : dom.fullBlogList <;> simp [renderAllArticles, hc]
  · intro h; cases ad <;> simp [renderAllArticles, h]

/-- Witness for C2: missing team container with non-null data, at a
concrete DOM. -/
theorem c2_render_noop_on_null_or_missing_witness :
    renderTeam (some [member0]) domOld = domOld :=
  (c2_render_noop_on_null_or_missing domOld (some [member0]) none none none).2.1 rfl

/-- C3 counterexample: a fetch that succeeds with success status 200
but whose body fails to parse as JSON makes `fetchData` return null and
write a log line — contradicting the claim that the parsed value is
returned whenever the status is a success and that the log is written
in exactly the network-error / non-success-status cases. -/
theorem c3_counterexample :
    respOk 200 = true ∧
    (fetchData "data/blog.json" badBodyOutcome).fst = none ∧
    (fetchData "data/blog.json" badBodyOutcome).snd ≠ [] := by
  refine ⟨rfl, rfl, ?_⟩
  decide

/-- C3 amended: `fetchData` returns the parsed value exactly when the
fetch produced a success-status response whose body parsed, and it
returns null (it never throws: it is a total function) writing a log
line in exactly the remaining cases — network error, non-success
status, or body-parse failure. -/
theorem c3_fetchdata_amended {α : Type} (url : String) (o : FetchOutcome α) :
    (∀ v : α, (fetchData url o).fst = some v ↔
      ∃ s : Nat, respOk s = true ∧ o = FetchOutcome.response s (Except.ok v)) ∧
    ((fetchData url o).snd ≠ [] ↔ (fetchData url o).fst = none) := by
  cases o with
  | networkError m =>
    refine ⟨fun v => ?_, by simp [fetchData]⟩
    simp [fetchData]
  | response s body =>
    by_cases hok : respOk s = true
    · cases body with
      | ok v =>
        refine ⟨fun w => ?_, by simp [fetchData, hok]⟩
        simp only [fetchData, hok, if_true]
        constructor
        · intro hw
          exact ⟨s, hok, by rw [Option.some.inj hw]⟩
        · rintro ⟨s', _, heq⟩
          simp only [FetchOutcome.response.injEq, Except.ok.injEq] at heq
          rw [heq.2]
      | error e =>
        refine ⟨fun w => ?_, by simp [fetchData, hok]⟩
        simp only [fetchData, hok, if_true]
        constructor
        · intro hw
          simp at hw
        · rintro ⟨s', _, heq⟩
          simp only [FetchOutcome.response.injEq] at heq
          exact absurd heq.2 (by simp)
    · refine ⟨fun w => ?_, by simp [fetchData, hok]⟩
      simp only [fetchData]
      rw [if_neg hok]
      constructor
      · intro hw
        simp at hw
      · rintro ⟨s', hok', heq⟩
        simp only [FetchOutcome.response.injEq] at heq
        rw [← heq.1] at hok'
        exact absurd hok' hok

/-- C4 counterexample: on the article page with a missing `id`
parameter, only the title is written; the content keeps its original
value instead of showing the fallback message, contradicting the claim
that both elements are written in the missing-id case. -/
theorem c4_counterexample :
    (renderFullArticle "" none (FetchResult.ok []) art0).fst.title = notFoundTitle ∧
    (renderFullArticle "" none (FetchResult.ok []) art0).fst.content = "orig" ∧
    "orig" ≠ notFoundContent := by
  refine ⟨rfl, rfl, ?_⟩
  decide

/-- C4 amended: for a missing, non-numeric or zero `id` the title alone
is set to the "not found" string (the content and all other elements
are unchanged, and no fetch happens); for an id that parses to a
nonzero number but matches no post, the title is set to the "not
found" string and the content shows the fallback message. -/
theorem c4_notfound_amended (href : String) (q : Option String)
    (blog : FetchResult (List BlogPost)) (art : ArticleDom) :
    ((jsParseIntOpt q = none ∨ jsParseIntOpt q = some 0) →
      (renderFullArticle href q blog art).fst = { art with title := notFoundTitle }) ∧
    (∀ i : Int, ∀ data : List BlogPost, jsParseIntOpt q = some i → i ≠ 0 →
      blog = FetchResult.ok data → data.find? (fun p => p.id == i) = none →
      (renderFullArticle href q blog art).fst =
        { art with title := notFoundTitle, content := notFoundContent }) := by
  constructor
  · rintro (h | h) <;> simp [renderFullArticle, h]
  · intro i data hq hi hb hf
    subst hb
    simp [renderFullArticle, hq, hi, hf]

/-- Witness for C4 amended: concrete missing-id and unmatched-id runs. -/
theorem c4_notfound_amended_witness :
    (renderFullArticle "" none (FetchResult.ok [post3]) art0).fst =
      { art0 with title := notFoundTitle } ∧
    (renderFullArticle "" (some "99") (FetchResult.ok [post3]) art0).fst =
      { art0 with title := notFoundTitle, content := notFoundContent } :=
  ⟨(c4_notfound_amended "" none (FetchResult.ok [post3]) art0).1 (Or.inl rfl),
   (c4_notfound_amended "" (some "99") (FetchResult.ok [post3]) art0).2 99 [post3]
     (by decide) (by decide) rfl (by decide)⟩

/-- C5 counterexample: on a landing path, with the team container
absent but the services container present (content `"old"`) and a
successful products fetch, `init` leaves the whole page unchanged even
though running `renderServices` would have replaced the services
content — contradicting the claim that each landing renderer runs
whenever its own container exists. -/
theorem c5_counterexample :
    strIncludes env0.path "article.html" = false ∧
    strIncludes env0.path "blog.html" = false ∧
    page0.dom.services = some "old" ∧
    init env0 page0 = page0 ∧
    (renderServices (fetchData "data/products.json" env0.productsOutcome).fst page0.dom).services ≠
      page0.dom.services := by
  refine ⟨by decide, by decide, rfl, by decide, by decide⟩

/-- C5 amended: `init` dispatches exactly one of three branches by
substring match on the path: an `article.html` path runs the
single-post renderer; otherwise a `blog.html` path renders the full
archive from the blog fetch; otherwise the three landing renderers run
only when the team container exists (each still writing only its own
present container), and nothing runs when it is missing. -/
theorem c5_dispatch_amended (env : Env) (p : Page) :
    (strIncludes env.path "article.html" = true →
      init env p =
        { p with art := (renderFullArticle env.href env.query env.articleOutcome p.art).fst }) ∧
    (strIncludes env.path "article.html" = false →
      strIncludes env.path "blog.html" = true →
      init env p =
        { p with dom := renderAllArticles (fetchData "data/blog.json" env.blogOutcome).fst p.dom }) ∧
    (strIncludes env.path "article.html" = false →
      strIncludes env.path "blog.html" = false →
      p.dom.team = none → init env p = p) ∧
    (strIncludes env.path "article.html" = false →
      strIncludes env.path "blog.html" = false →
      p.dom.team.isSome = true →
      init env p = { p with dom := landingRender env p.dom }) := by
  refine ⟨?_, ?_, ?_, ?_⟩
  · intro h1
    simp [init, h1]
  · intro h1 h2
    simp [init, h1, h2]
  · intro h1 h2 h3
    simp [init, h1, h2, h3]
  · intro h1 h2 h3
    cases hc : p.dom.team with
    | none => rw [hc] at h3; simp at h3
    | some c => simp [init, h1, h2, hc]

/-- Witness for C5 amended: the article branch at a concrete article
environment, and the team-gate branch at a concrete landing
environment with no team container. -/
theorem c5_dispatch_amended_witness :
    init envArt page0 =
      { page0 with art :=
          (renderFullArticle envArt.href envArt.query envArt.articleOutcome page0.art).fst } ∧
    init env0 page0 = page0 :=
  ⟨(c5_dispatch_amended envArt page0).1 (by decide),
   (c5_dispatch_amended env0 page0).2.2.1 (by decide) (by decide) rfl⟩

/-- C6: for every contact-form submission, whether the email-widget
call resolves or rejects, the `finally` continuation re-enables the
submit button and restores its text content to the label it had
immediately before submission. -/
theorem c6_button_restored (success : Bool) (rand : Nat) (c : SubmitCtx) :
    (submitHandler success rand c).btn.text = c.btn.text ∧
    (submitHandler success rand c).btn.disabled = false := by
  cases hc : c.contactNumber <;> cases success <;> simp [submitHandler, hc]

/-- C7: performing the mobile-menu toggle action twice in succession
returns both the navigation element's class set and the toggle
element's class set to their state before the first toggle, for every
initial class state. -/
theorem c7_menu_toggle_involution (m : MenuState) :
    menuToggleClick (menuToggleClick m) = m := by
  cases m with
  | mk nav tog => simp [menuToggleClick, classToggle_twice]

/-- C8: starting from the modal's hidden state (display `none`, no
`modal--open` class), the open action with its 10ms timer followed by
the close action with its 300ms transition timer returns the modal
container to its original hidden state. -/
theorem c8_modal_roundtrip (m : ModalUi) (h1 : m.display = "none")
    (h2 : "modal--open" ∉ m.classes) :
    closeTimer (closeClick (openTimer (openClick m))) = m := by
  cases m with
  | mk d cl =>
    have hd : d = "none" := h1
    have hcl : "modal--open" ∉ cl := h2
    simp only [openClick, openTimer, closeClick, closeTimer]
    rw [Finset.erase_insert hcl, hd]

/-- Witness for C8 at the concrete initial modal state. -/
theorem c8_modal_roundtrip_witness :
    closeTimer (closeClick (openTimer (openClick modal0))) = modal0 :=
  c8_modal_roundtrip modal0 rfl (by simp [modal0])

/-- C9: the blog preview fragment renders exactly the first two tags of
a post with more than two tags (`slice(0, 2)`), the archive fragment
renders every tag, and the two fragments for the same record differ. -/
theorem c9_preview_vs_archive (p : BlogPost) (h : 2 < p.tags.length) :
    ((p.tags.take 2).map smallTagHtml).length = 2 ∧
    (p.tags.map smallTagHtml).length = p.tags.length ∧
    blogCardHtml p ≠ allArticleCardHtml p := by
  refine ⟨?_, by simp, ?_⟩
  · simp only [List.length_map, List.length_take]
    omega
  · intro heq
    have h37 : (blogCardHtml p).data.take 37 = (allArticleCardHtml p).data.take 37 := by
      rw [heq]
    rw [blogCard_take37, allArticleCard_take37] at h37
    exact absurd h37 (by decide)

/-- Witness for C9 at a concrete three-tag post. -/
theorem c9_preview_vs_archive_witness :
    2 < post3.tags.length ∧ blogCardHtml post3 ≠ allArticleCardHtml post3 :=
  ⟨by decide, (c9_preview_vs_archive post3 (by decide)).2.2⟩

/-- C10: an `id` query parameter that is missing, does not parse to a
number, or parses to `0` sends `renderFullArticle` to the not-found
branch (only the title is written), so the matched-post branch only
ever runs for a nonzero parsed id; the lookup is `p.id === id`, so the
selected post's id equals the parsed id and is never `0`. -/
theorem c10_zero_id_never_rendered (href : String) (q : Option String)
    (blog : FetchResult (List BlogPost)) (art : ArticleDom) :
    ((jsParseIntOpt q = none ∨ jsParseIntOpt q = some 0) →
      (renderFullArticle href q blog art).fst = { art with title := notFoundTitle }) ∧
    (∀ i : Int, ∀ data : List BlogPost, ∀ post : BlogPost,
      jsParseIntOpt q = some i → i ≠ 0 → blog = FetchResult.ok data →
      data.find? (fun p => p.id == i) = some post →
      (renderFullArticle href q blog art).fst = renderFoundPost href post art ∧
      post.id = i ∧ post.id ≠ 0) := by
  constructor
  · rintro (h | h) <;> simp [renderFullArticle, h]
  · intro i data post hq hi hb hf
    subst hb
    have hid : post.id = i := by
      have hp := List.find?_some hf
      simpa using hp
    refine ⟨by simp [renderFullArticle, hq, hi, hf], hid, ?_⟩
    rw [hid]
    exact hi

/-- Witness for C10: a zero id goes to the not-found branch; id `1`
selects the post with id `1` by strict equality. -/
theorem c10_zero_id_never_rendered_witness :
    (renderFullArticle "" (some "0") (FetchResult.ok [post3]) art0).fst =
      { art0 with title := notFoundTitle } ∧
    (renderFullArticle "" (some "1") (FetchResult.ok [post3]) art0).fst =
      renderFoundPost "" post3 art0 :=
  ⟨(c10_zero_id_never_rendered "" (some "0") (FetchResult.ok [post3]) art0).1
     (Or.inr (by decide)),
   ((c10_zero_id_never_rendered "" (some "1") (FetchResult.ok [post3]) art0).2 1 [post3] post3
     (by decide) (by decide) rfl (by decide)).1⟩

end Munificent
